import Mathlib

/-!
# iaf_psc_exp_ps_lossless: configuration, connection checks and recordables

A shallow embedding of `src/precise/iaf_psc_exp_ps_lossless.h`.

* C++ `double` is a type parameter `R`; the recordable accessors only need its addition.
* C++ `long`, `port` and `rport` are `Int`; no arithmetic is done on them here.
* Host classes that the header only includes (`SliceRingBuffer`, `RingBuffer`,
  `UniversalDataLogger`, `DictionaryDatum`, the event classes) are type parameters.
* Member functions that are declared in the header and defined elsewhere
  (`Parameters_::set`, `State_::set`, `connect_logging_device`) are function parameters.
* A member function that can throw returns the pair of its outcome and the unit as it
  is when control leaves the function, so "nothing was committed" can be stated.
* `update`, `propagate_`, `emit_spike_`, `is_spike_` and `bisectioning_` are declared in
  the header and defined elsewhere; the stepper and its refractory state machine are
  modelled from the specification (sections 3, 4.2 to 4.5), with the closed-form
  arithmetic left as parameters.
-/

namespace nest

/-! ## Data model -/

/-- Independent parameters of the model (`struct Parameters_`). -/
structure Parameters_ (R : Type) where
  /-- Membrane time constant in ms. -/
  tau_m_ : R
  /-- Time constant of exc. synaptic current in ms. -/
  tau_ex_ : R
  /-- Time constant of inh. synaptic current in ms. -/
  tau_in_ : R
  /-- Membrane capacitance in pF. -/
  c_m_ : R
  /-- Refractory period in ms. -/
  t_ref_ : R
  /-- Resting potential in mV. -/
  E_L_ : R
  /-- External DC current in pA. -/
  I_e_ : R
  /-- Threshold, relative to the resting potential. -/
  U_th_ : R
  /-- Lower bound, relative to the resting potential. -/
  U_min_ : R
  /-- Reset potential, relative to the resting potential. -/
  U_reset_ : R
deriving DecidableEq, Repr

/-- State variables of the model (`struct State_`). -/
structure State_ (R : Type) where
  /-- External input current. -/
  y0_ : R
  /-- Exc. exponential current. -/
  I_syn_ex_ : R
  /-- Inh. exponential current. -/
  I_syn_in_ : R
  /-- Membrane potential, relative to the resting potential. -/
  y2_ : R
  /-- True while refractory. -/
  is_refractory_ : Bool
  /-- Time stamp of most recent spike. -/
  last_spike_step_ : Int
  /-- Offset of most recent spike. -/
  last_spike_offset_ : R
deriving DecidableEq, Repr

/-- Buffers of the model (`struct Buffers_`); the three host container classes are
type parameters. -/
structure Buffers_ (SRB RB UDL : Type) where
  /-- Queue for incoming events. -/
  events_ : SRB
  currents_ : RB
  /-- Logger for all analog data. -/
  logger_ : UDL
deriving DecidableEq, Repr

/-- Internal variables of the model (`struct Variables_`). -/
structure Variables_ (R : Type) where
  h_ms_ : R
  refractory_steps_ : Int
  expm1_tau_m_ : R
  expm1_tau_ex_ : R
  expm1_tau_in_ : R
  P20_ : R
  P21_in_ : R
  P21_ex_ : R
  y0_before_ : R
  I_syn_ex_before_ : R
  I_syn_in_before_ : R
  y2_before_ : R
  bisection_step : R
  a1_ : R
  a2_ : R
  a3_ : R
  a4_ : R
  b1_ : R
  b2_ : R
  b3_ : R
  b4_ : R
  c1_ : R
  c2_ : R
  c3_ : R
  c4_ : R
  c5_ : R
  c6_ : R
deriving DecidableEq, Repr

/-- One unit of `class iaf_psc_exp_ps_lossless`: the four data members `P_`, `S_`, `V_`,
`B_`, and `name`, the value of the inherited `Node::get_name()`. -/
structure iaf_psc_exp_ps_lossless (R SRB RB UDL : Type) where
  name : String
  P_ : Parameters_ R
  S_ : State_ R
  V_ : Variables_ R
  B_ : Buffers_ SRB RB UDL
deriving DecidableEq, Repr

/-- Exceptions leaving the connection checks: `UnknownReceptorType(receptor_type, name)`
is the one thrown in this header, `other` wraps whatever a host function called from
here throws. -/
inductive KernelException (E : Type) where
  | UnknownReceptorType (receptor_type : Int) (name : String)
  | other (e : E)
deriving DecidableEq, Repr

section Model

variable {R SRB RB UDL E D SE CE DLR RM Addr W : Type}

/-! ## Access functions for the data logger -/

/-- Read out the real membrane potential: `return S_.y2_ + P_.E_L_;`. -/
def get_V_m_ [Add R] (self : iaf_psc_exp_ps_lossless R SRB RB UDL) : R :=
  self.S_.y2_ + self.P_.E_L_

/-- Total synaptic current: `return S_.I_syn_ex_ + S_.I_syn_in_;`. -/
def get_I_syn_ [Add R] (self : iaf_psc_exp_ps_lossless R SRB RB UDL) : R :=
  self.S_.I_syn_ex_ + self.S_.I_syn_in_

/-- Excitatory synaptic current: `return S_.I_syn_ex_;`. -/
def get_I_syn_ex_ (self : iaf_psc_exp_ps_lossless R SRB RB UDL) : R :=
  self.S_.I_syn_ex_

/-- Inhibitory synaptic current: `return S_.I_syn_in_;`. -/
def get_I_syn_in_ (self : iaf_psc_exp_ps_lossless R SRB RB UDL) : R :=
  self.S_.I_syn_in_

/-- A call of a `const` member function such as the four accessors: the value it
returns, paired with the unit after the call.  A `const` member has no assignment to
any data member, so the unit comes back as it went in. -/
def const_call {α : Type} (f : iaf_psc_exp_ps_lossless R SRB RB UDL → α)
    (self : iaf_psc_exp_ps_lossless R SRB RB UDL) :
    α × iaf_psc_exp_ps_lossless R SRB RB UDL :=
  (f self, self)

/-! ## Connection checks -/

/-- The overload `handles_test_event(SpikeEvent &, port receptor_type)`.  The event
parameter is unnamed in the source, hence unused. -/
def handles_test_event_SpikeEvent (_e : SE) (receptor_type : Int)
    (self : iaf_psc_exp_ps_lossless R SRB RB UDL) :
    Except (KernelException E) Int × iaf_psc_exp_ps_lossless R SRB RB UDL :=
  if receptor_type ≠ 0 then
    (Except.error (KernelException.UnknownReceptorType receptor_type self.name), self)
  else
    (Except.ok 0, self)

/-- The overload `handles_test_event(CurrentEvent &, port receptor_type)`. -/
def handles_test_event_CurrentEvent (_e : CE) (receptor_type : Int)
    (self : iaf_psc_exp_ps_lossless R SRB RB UDL) :
    Except (KernelException E) Int × iaf_psc_exp_ps_lossless R SRB RB UDL :=
  if receptor_type ≠ 0 then
    (Except.error (KernelException.UnknownReceptorType receptor_type self.name), self)
  else
    (Except.ok 0, self)

/-- The overload `handles_test_event(DataLoggingRequest & dlr, port receptor_type)`.
`connect_logging_device` is the member of the host's `UniversalDataLogger`, taken as a
parameter: from the logger, the request and the recordables map it yields a port or an
exception of its own, and the logger as it leaves it. -/
def handles_test_event_DataLoggingRequest
    (connect_logging_device : UDL → DLR → RM → Except E Int × UDL)
    (recordablesMap_ : RM) (dlr : DLR) (receptor_type : Int)
    (self : iaf_psc_exp_ps_lossless R SRB RB UDL) :
    Except (KernelException E) Int × iaf_psc_exp_ps_lossless R SRB RB UDL :=
  if receptor_type ≠ 0 then
    (Except.error (KernelException.UnknownReceptorType receptor_type self.name), self)
  else
    let r := connect_logging_device self.B_.logger_ dlr recordablesMap_
    (r.1.mapError KernelException.other,
      { self with B_ := { self.B_ with logger_ := r.2 } })

/-- The member `send_test_event(Node& target, rport receptor_type, synindex, bool)`.
`newSpikeEvent` is the default-constructed `SpikeEvent`, `set_sender` the host's
`Event::set_sender`, `this` the reference to the sending unit.  The target's virtual
`handles_test_event(SpikeEvent&, rport)` acts on `w`, the nodes it can reach. -/
def send_test_event (newSpikeEvent : SE) (set_sender : SE → Addr → SE) (this : Addr)
    (target_handles_test_event : SE → Int → W → Except (KernelException E) Int × W)
    (receptor_type : Int) (_synindex : Nat) (_b : Bool) (w : W) :
    Except (KernelException E) Int × W :=
  let e := newSpikeEvent
  let e := set_sender e this
  target_handles_test_event e receptor_type w

/-- The target's check when the target is another unit of this model: the world is the
pair (sender, target) and the check runs on the target. -/
def check_on_target (e : SE) (receptor_type : Int)
    (w : iaf_psc_exp_ps_lossless R SRB RB UDL × iaf_psc_exp_ps_lossless R SRB RB UDL) :
    Except (KernelException E) Int ×
      (iaf_psc_exp_ps_lossless R SRB RB UDL × iaf_psc_exp_ps_lossless R SRB RB UDL) :=
  let r := handles_test_event_SpikeEvent e receptor_type w.2
  (r.1, (w.1, r.2))

/-! ## Configuration -/

/-- The member `set_status(const DictionaryDatum & d)`.  `Parameters_set` is
`Parameters_::set` (it changes the parameter copy it is called on and returns
`delta_EL`, or throws) and `State_set` is `State_::set` (it changes the state copy, or
throws); both are defined outside the header and are parameters here.  A throw leaves
the function before the two assignments `P_ = ptmp; S_ = stmp;`. -/
def set_status
    (Parameters_set : D → Parameters_ R → Except E (Parameters_ R × R))
    (State_set : D → Parameters_ R → R → State_ R → Except E (State_ R))
    (d : D) (self : iaf_psc_exp_ps_lossless R SRB RB UDL) :
    Except E Unit × iaf_psc_exp_ps_lossless R SRB RB UDL :=
  -- Parameters_ ptmp = P_;  double delta_EL = ptmp.set(d);
  match Parameters_set d self.P_ with
  | Except.error err => (Except.error err, self)
  | Except.ok (ptmp, delta_EL) =>
    -- State_ stmp = S_;  stmp.set(d, ptmp, delta_EL);
    match State_set d ptmp delta_EL self.S_ with
    | Except.error err => (Except.error err, self)
    | Except.ok stmp =>
      -- P_ = ptmp;  S_ = stmp;
      (Except.ok (), { self with P_ := ptmp, S_ := stmp })

/-! ## The event-driven stepper and the refractory state machine -/

/-- Modelled from the spec: the event variant of section 3; the event classes and the
slice ring buffer that delivers them are not in the header.  A synaptic spike carries a
signed weight, a sub-step offset and its channel (excitatory or inhibitory), an external
current an amplitude and an offset, the refractory-end marker only an offset. -/
inductive Event (R : Type) where
  | synaptic_spike (weight : R) (offset : R) (excitatory : Bool)
  | external_current (amplitude : R) (offset : R)
  | refractory_end (offset : R)
deriving DecidableEq, Repr

/-- Modelled from the spec: the sub-step offset every event of section 3 carries. -/
def Event.offset : Event R → R
  | Event.synaptic_spike _ offset _ => offset
  | Event.external_current _ offset => offset
  | Event.refractory_end offset => offset

end Model

/-! ## Sample instantiation

Concrete stand-ins for the parameters of the model, used to evaluate the definitions
on explicit inputs: `double` values are whole numbers, the dictionary is an
association list, exceptions are their messages. -/

section Samples

/-- Dictionary keys of the sample dictionaries. -/
inductive Key where
  | E_L
  | tau_m
  | V_m
deriving DecidableEq, Repr

/-- A sample `Parameters_::set`: it reads `E_L` and `tau_m`, rejects a non-positive
`tau_m`, and returns the change of `E_L`. -/
def sample_Parameters_set (d : List (Key × Int)) (p : Parameters_ Int) :
    Except String (Parameters_ Int × Int) :=
  let E_L := (d.lookup Key.E_L).getD p.E_L_
  let delta_EL := E_L - p.E_L_
  let tau_m := (d.lookup Key.tau_m).getD p.tau_m_
  if tau_m ≤ 0 then Except.error "tau_m must be strictly positive"
  else Except.ok ({ p with E_L_ := E_L, tau_m_ := tau_m }, delta_EL)

/-- A sample `State_::set`: it reads `V_m` relative to the resting potential of the
parameters it is given, rejects a value below the lower bound, and otherwise shifts the
stored potential by `delta_EL`. -/
def sample_State_set (d : List (Key × Int)) (p : Parameters_ Int) (delta_EL : Int)
    (s : State_ Int) : Except String (State_ Int) :=
  match d.lookup Key.V_m with
  | some v =>
    if v - p.E_L_ < p.U_min_ then Except.error "V_m below V_min"
    else Except.ok { s with y2_ := v - p.E_L_ }
  | none => Except.ok { s with y2_ := s.y2_ - delta_EL }

/-- A sample `connect_logging_device`: the logger is the list of connected requests and
the port handed out is the new number of connections. -/
def sample_connect_logging_device (logger : List Nat) (dlr : Nat) (_rm : Unit) :
    Except String Int × List Nat :=
  (Except.ok (Int.ofNat (logger.length + 1)), logger ++ [dlr])

/-- Sample parameters: E_L = -70 mV, tau_m = 10 ms, tau_syn = 2 ms, C_m = 250 pF,
t_ref = 2 ms, threshold 15 mV and reset 0 mV relative to E_L. -/
def sampleParameters : Parameters_ Int :=
  { tau_m_ := 10, tau_ex_ := 2, tau_in_ := 2, c_m_ := 250, t_ref_ := 2, E_L_ := -70,
    I_e_ := 0, U_th_ := 15, U_min_ := -1000, U_reset_ := 0 }

/-- Sample state: at rest, not refractory, no spike yet. -/
def sampleState : State_ Int :=
  { y0_ := 0, I_syn_ex_ := 0, I_syn_in_ := 0, y2_ := 0, is_refractory_ := false,
    last_spike_step_ := -1, last_spike_offset_ := 0 }

/-- Sample internal variables, before any calibration. -/
def sampleVariables : Variables_ Int :=
  { h_ms_ := 0, refractory_steps_ := 0, expm1_tau_m_ := 0, expm1_tau_ex_ := 0,
    expm1_tau_in_ := 0, P20_ := 0, P21_in_ := 0, P21_ex_ := 0, y0_before_ := 0,
    I_syn_ex_before_ := 0, I_syn_in_before_ := 0, y2_before_ := 0, bisection_step := 0,
    a1_ := 0, a2_ := 0, a3_ := 0, a4_ := 0, b1_ := 0, b2_ := 0, b3_ := 0, b4_ := 0,
    c1_ := 0, c2_ := 0, c3_ := 0, c4_ := 0, c5_ := 0, c6_ := 0 }

/-- Sample unit with empty buffers and no logging device connected. -/
def sampleUnit : iaf_psc_exp_ps_lossless Int Unit Unit (List Nat) :=
  { name := "iaf_psc_exp_ps_lossless", P_ := sampleParameters, S_ := sampleState,
    V_ := sampleVariables, B_ := { events_ := (), currents_ := (), logger_ := [] } }

end Samples

/-! ## Theorems -/

section Theorems

variable {R SRB RB UDL E D SE CE DLR RM Addr W : Type}

/-! ### Configuration: `set_status` -/

/-- C1: `set_status` is atomic on failure.  If `Parameters_::set` on the staged parameter
copy is rejected with `err`, or it succeeds and `State_::set` on the staged state copy is
rejected with `err`, then `set_status` surfaces `err` and the unit is exactly what it was
before the call; in particular the successfully staged parameters are not committed. -/
theorem set_status_atomic_on_failure
    (Parameters_set : D → Parameters_ R → Except E (Parameters_ R × R))
    (State_set : D → Parameters_ R → R → State_ R → Except E (State_ R))
    (d : D) (self : iaf_psc_exp_ps_lossless R SRB RB UDL) (err : E)
    (h : Parameters_set d self.P_ = Except.error err ∨
      ∃ ptmp delta_EL, Parameters_set d self.P_ = Except.ok (ptmp, delta_EL) ∧
        State_set d ptmp delta_EL self.S_ = Except.error err) :
    set_status Parameters_set State_set d self = (Except.error err, self) ∧
      (set_status Parameters_set State_set d self).2.P_ = self.P_ ∧
      (set_status Parameters_set State_set d self).2.S_ = self.S_ := by
  have key : set_status Parameters_set State_set d self = (Except.error err, self) := by
    rcases h with h | ⟨ptmp, delta_EL, h1, h2⟩
    · simp only [set_status, h]
    · simp only [set_status, h1, h2]
  rw [key]
  exact ⟨rfl, rfl, rfl⟩

/-- Witness for C1: a dictionary with `tau_m = 0` is rejected by the parameter staging,
and a dictionary with `tau_m = 20`, `V_m = -2000` passes the parameter staging and is
rejected by the state staging; in both cases the sample unit is left as it was. -/
theorem set_status_atomic_on_failure_witness :
    (sample_Parameters_set [(Key.tau_m, 0)] sampleUnit.P_
        = Except.error "tau_m must be strictly positive" ∧
      set_status sample_Parameters_set sample_State_set [(Key.tau_m, 0)] sampleUnit
        = (Except.error "tau_m must be strictly positive", sampleUnit)) ∧
    (sample_Parameters_set [(Key.tau_m, 20), (Key.V_m, -2000)] sampleUnit.P_
        = Except.ok ({ sampleParameters with tau_m_ := 20 }, 0) ∧
      sample_State_set [(Key.tau_m, 20), (Key.V_m, -2000)]
          { sampleParameters with tau_m_ := 20 } 0 sampleUnit.S_
        = Except.error "V_m below V_min" ∧
      set_status sample_Parameters_set sample_State_set
          [(Key.tau_m, 20), (Key.V_m, -2000)] sampleUnit
        = (Except.error "V_m below V_min", sampleUnit)) :=
  ⟨⟨rfl, (set_status_atomic_on_failure sample_Parameters_set sample_State_set
      [(Key.tau_m, 0)] sampleUnit "tau_m must be strictly positive" (Or.inl rfl)).1⟩,
   ⟨rfl, by rfl, (set_status_atomic_on_failure sample_Parameters_set sample_State_set
      [(Key.tau_m, 20), (Key.V_m, -2000)] sampleUnit "V_m below V_min"
      (Or.inr ⟨{ sampleParameters with tau_m_ := 20 }, 0, rfl, by rfl⟩)).1⟩⟩

/-- C7: `set_status` commits exactly the staged pair on success.  When
`Parameters_::set(d)` applied to a copy of the old `P_` yields `ptmp` and `delta_EL`, and
`State_::set(d, ptmp, delta_EL)` applied to a copy of the old `S_` yields `stmp` (so the
state staging sees the new parameters and the `delta_EL` of that same call), the call
succeeds, the new `P_` is `ptmp` and the new `S_` is `stmp`. -/
theorem set_status_commits_staged_pair
    (Parameters_set : D → Parameters_ R → Except E (Parameters_ R × R))
    (State_set : D → Parameters_ R → R → State_ R → Except E (State_ R))
    (d : D) (self : iaf_psc_exp_ps_lossless R SRB RB UDL)
    (ptmp : Parameters_ R) (delta_EL : R) (stmp : State_ R)
    (hP : Parameters_set d self.P_ = Except.ok (ptmp, delta_EL))
    (hS : State_set d ptmp delta_EL self.S_ = Except.ok stmp) :
    set_status Parameters_set State_set d self
        = (Except.ok (), { self with P_ := ptmp, S_ := stmp }) ∧
      (set_status Parameters_set State_set d self).2.P_ = ptmp ∧
      (set_status Parameters_set State_set d self).2.S_ = stmp := by
  have key : set_status Parameters_set State_set d self
      = (Except.ok (), { self with P_ := ptmp, S_ := stmp }) := by
    simp only [set_status, hP, hS]
  rw [key]
  exact ⟨rfl, rfl, rfl⟩

/-- Witness for C7: setting `E_L = -60` and `V_m = -55` on the sample unit (old
`E_L = -70`) commits `E_L_ = -60` and `y2_ = -55 - (-60) = 5`, the potential relative to
the new resting potential; relative to the old one it would have been 15. -/
theorem set_status_commits_staged_pair_witness :
    sample_Parameters_set [(Key.E_L, -60), (Key.V_m, -55)] sampleUnit.P_
        = Except.ok ({ sampleParameters with E_L_ := -60 }, 10) ∧
      sample_State_set [(Key.E_L, -60), (Key.V_m, -55)]
          { sampleParameters with E_L_ := -60 } 10 sampleUnit.S_
        = Except.ok { sampleState with y2_ := 5 } ∧
      set_status sample_Parameters_set sample_State_set
          [(Key.E_L, -60), (Key.V_m, -55)] sampleUnit
        = (Except.ok (), { sampleUnit with
            P_ := { sampleParameters with E_L_ := -60 },
            S_ := { sampleState with y2_ := 5 } }) :=
  ⟨rfl, by rfl, (set_status_commits_staged_pair sample_Parameters_set sample_State_set
      [(Key.E_L, -60), (Key.V_m, -55)] sampleUnit
      { sampleParameters with E_L_ := -60 } 10 { sampleState with y2_ := 5 } rfl
      (by rfl)).1⟩

/-- C8: `set_status` changes only `P_` and `S_`.  Whether the call commits or is
rejected, the internal variables `V_` (all derived coefficients) and the buffers `B_` of
the unit after the call are those before the call; the unit's name is untouched too. -/
theorem set_status_frame
    (Parameters_set : D → Parameters_ R → Except E (Parameters_ R × R))
    (State_set : D → Parameters_ R → R → State_ R → Except E (State_ R))
    (d : D) (self : iaf_psc_exp_ps_lossless R SRB RB UDL) :
    (set_status Parameters_set State_set d self).2.V_ = self.V_ ∧
      (set_status Parameters_set State_set d self).2.B_ = self.B_ ∧
      (set_status Parameters_set State_set d self).2.name = self.name := by
  unfold set_status
  split
  · exact ⟨rfl, rfl, rfl⟩
  · split
    · exact ⟨rfl, rfl, rfl⟩
    · exact ⟨rfl, rfl, rfl⟩

/-! ### Connection checks: `handles_test_event` and `send_test_event` -/

/-- C2: each of the three connection checks is rejected with `UnknownReceptorType`
carrying `receptor_type` (and the unit's name) if and only if `receptor_type ≠ 0`.  For
`receptor_type = 0` the spike and current checks return port 0, and the data-logging
check returns what `connect_logging_device` returns (a port, or that function's own
exception). -/
theorem handles_test_event_rejects_iff_nonzero
    (connect_logging_device : UDL → DLR → RM → Except E Int × UDL) (recordablesMap_ : RM)
    (e : SE) (c : CE) (dlr : DLR) (receptor_type : Int)
    (self : iaf_psc_exp_ps_lossless R SRB RB UDL) :
    (((handles_test_event_SpikeEvent (E := E) e receptor_type self).1
          = Except.error (KernelException.UnknownReceptorType receptor_type self.name)
        ↔ receptor_type ≠ 0) ∧
      ((handles_test_event_SpikeEvent (E := E) e receptor_type self).1 = Except.ok 0
        ↔ receptor_type = 0)) ∧
    (((handles_test_event_CurrentEvent (E := E) c receptor_type self).1
          = Except.error (KernelException.UnknownReceptorType receptor_type self.name)
        ↔ receptor_type ≠ 0) ∧
      ((handles_test_event_CurrentEvent (E := E) c receptor_type self).1 = Except.ok 0
        ↔ receptor_type = 0)) ∧
    (((handles_test_event_DataLoggingRequest connect_logging_device recordablesMap_ dlr
            receptor_type self).1
          = Except.error (KernelException.UnknownReceptorType receptor_type self.name)
        ↔ receptor_type ≠ 0) ∧
      (handles_test_event_DataLoggingRequest connect_logging_device recordablesMap_ dlr
            receptor_type self).1
          = if receptor_type ≠ 0 then
              Except.error (KernelException.UnknownReceptorType receptor_type self.name)
            else
              (connect_logging_device self.B_.logger_ dlr recordablesMap_).1.mapError
                KernelException.other) := by
  by_cases h : receptor_type = 0
  · subst h
    refine ⟨⟨?_, ?_⟩, ⟨?_, ?_⟩, ⟨?_, ?_⟩⟩
    · simp [handles_test_event_SpikeEvent]
    · simp [handles_test_event_SpikeEvent]
    · simp [handles_test_event_CurrentEvent]
    · simp [handles_test_event_CurrentEvent]
    · simp only [handles_test_event_DataLoggingRequest, ne_eq, not_true_eq_false,
        if_false, iff_false]
      cases (connect_logging_device self.B_.logger_ dlr recordablesMap_).1 with
      | error err => simp [Except.mapError]
      | ok p => simp [Except.mapError]
    · simp [handles_test_event_DataLoggingRequest]
  · refine ⟨⟨?_, ?_⟩, ⟨?_, ?_⟩, ⟨?_, ?_⟩⟩
    · simp [handles_test_event_SpikeEvent, h]
    · simp [handles_test_event_SpikeEvent, h]
    · simp [handles_test_event_CurrentEvent, h]
    · simp [handles_test_event_CurrentEvent, h]
    · simp [handles_test_event_DataLoggingRequest, h]
    · simp [handles_test_event_DataLoggingRequest, h]

/-- Witness for C2: on the sample unit, receptor 3 is rejected by the spike check with
`UnknownReceptorType 3`, and receptor 0 is accepted by the current check with port 0. -/
theorem handles_test_event_rejects_iff_nonzero_witness :
    ((3 : Int) ≠ 0 ∧
      (handles_test_event_SpikeEvent (E := String) () 3 sampleUnit).1
        = Except.error (KernelException.UnknownReceptorType 3 "iaf_psc_exp_ps_lossless")) ∧
    ((0 : Int) = 0 ∧
      (handles_test_event_CurrentEvent (E := String) () 0 sampleUnit).1 = Except.ok 0) :=
  ⟨⟨by decide, (handles_test_event_rejects_iff_nonzero sample_connect_logging_device ()
      () () 7 3 sampleUnit).1.1.mpr (by decide)⟩,
   ⟨rfl, (handles_test_event_rejects_iff_nonzero sample_connect_logging_device ()
      () () 7 0 sampleUnit).2.1.2.mpr rfl⟩⟩

/-- C3: a rejected connection request mutates nothing.  For `receptor_type ≠ 0` each of
the three checks raises `UnknownReceptorType` and returns the unit as it was (`P_`,
`S_`, `V_`, `B_` with its logger); the data-logging outcome is then the same for any two
`connect_logging_device` functions, which is to say that function was not run.  The
spike and current checks return the unit unchanged for every `receptor_type`. -/
theorem rejected_connection_mutates_nothing
    (connect_logging_device connect_logging_device2 : UDL → DLR → RM → Except E Int × UDL)
    (recordablesMap_ : RM) (e : SE) (c : CE) (dlr : DLR)
    (self : iaf_psc_exp_ps_lossless R SRB RB UDL) :
    (∀ receptor_type : Int,
      (handles_test_event_SpikeEvent (E := E) e receptor_type self).2 = self) ∧
    (∀ receptor_type : Int,
      (handles_test_event_CurrentEvent (E := E) c receptor_type self).2 = self) ∧
    (∀ receptor_type : Int, receptor_type ≠ 0 →
      handles_test_event_DataLoggingRequest connect_logging_device recordablesMap_ dlr
          receptor_type self
        = (Except.error (KernelException.UnknownReceptorType receptor_type self.name),
            self) ∧
      handles_test_event_DataLoggingRequest connect_logging_device recordablesMap_ dlr
          receptor_type self
        = handles_test_event_DataLoggingRequest connect_logging_device2 recordablesMap_
            dlr receptor_type self) := by
  refine ⟨?_, ?_, ?_⟩
  · intro receptor_type
    unfold handles_test_event_SpikeEvent
    split <;> rfl
  · intro receptor_type
    unfold handles_test_event_CurrentEvent
    split <;> rfl
  · intro receptor_type h
    simp only [handles_test_event_DataLoggingRequest, if_pos h, and_self]

/-- Witness for C3: a data-logging request on receptor 3 of the sample unit is rejected
and the unit, with its empty logger, comes back unchanged. -/
theorem rejected_connection_mutates_nothing_witness :
    (3 : Int) ≠ 0 ∧
      handles_test_event_DataLoggingRequest sample_connect_logging_device () 7 3 sampleUnit
        = (Except.error (KernelException.UnknownReceptorType 3 "iaf_psc_exp_ps_lossless"),
            sampleUnit) :=
  ⟨by decide, ((rejected_connection_mutates_nothing sample_connect_logging_device
      sample_connect_logging_device () () () 7 sampleUnit).2.2 3 (by decide)).1⟩

/-- C9: `send_test_event` forwards the target's spike-port decision unchanged.  Its
outcome is the outcome of the target's `handles_test_event` on a fresh spike event whose
sender is this unit, with the same `receptor_type`; the synapse index and the boolean
play no part.  When the target is a unit of this model (another unit, or the sender
itself) the result is port 0 for `receptor_type = 0` and `UnknownReceptorType` otherwise,
and sender and target are unchanged. -/
theorem send_test_event_forwards
    (newSpikeEvent : SE) (set_sender : SE → Addr → SE) (this : Addr)
    (target_handles_test_event : SE → Int → W → Except (KernelException E) Int × W)
    (receptor_type : Int) (syn syn2 : Nat) (b b2 : Bool) (w : W)
    (sender target : iaf_psc_exp_ps_lossless R SRB RB UDL) :
    send_test_event newSpikeEvent set_sender this target_handles_test_event
        receptor_type syn b w
      = target_handles_test_event (set_sender newSpikeEvent this) receptor_type w ∧
    send_test_event newSpikeEvent set_sender this target_handles_test_event
        receptor_type syn b w
      = send_test_event newSpikeEvent set_sender this target_handles_test_event
          receptor_type syn2 b2 w ∧
    send_test_event (E := E) newSpikeEvent set_sender this check_on_target
        receptor_type syn b (sender, target)
      = (if receptor_type = 0 then Except.ok 0
          else Except.error (KernelException.UnknownReceptorType receptor_type target.name),
         (sender, target)) ∧
    send_test_event (E := E) newSpikeEvent set_sender this handles_test_event_SpikeEvent
        receptor_type syn b sender
      = (if receptor_type = 0 then Except.ok 0
          else Except.error (KernelException.UnknownReceptorType receptor_type sender.name),
         sender) := by
  refine ⟨rfl, rfl, ?_, ?_⟩
  · by_cases h : receptor_type = 0
    · simp [send_test_event, check_on_target, handles_test_event_SpikeEvent, h]
    · simp [send_test_event, check_on_target, handles_test_event_SpikeEvent, h]
  · by_cases h : receptor_type = 0
    · simp [send_test_event, handles_test_event_SpikeEvent, h]
    · simp [send_test_event, handles_test_event_SpikeEvent, h]

/-! ### Recordables -/

/-- C5: the `V_m` recordable reads the absolute membrane potential from the current
state: `get_V_m_()` equals `S_.y2_ + P_.E_L_`, and the call, being a `const` read, gives
the unit back with `P_` and `S_` as they were. -/
theorem get_V_m_reads_absolute_potential [Add R]
    (self : iaf_psc_exp_ps_lossless R SRB RB UDL) :
    get_V_m_ self = self.S_.y2_ + self.P_.E_L_ ∧
      (const_call get_V_m_ self).1 = self.S_.y2_ + self.P_.E_L_ ∧
      (const_call get_V_m_ self).2.P_ = self.P_ ∧
      (const_call get_V_m_ self).2.S_ = self.S_ :=
  ⟨rfl, rfl, rfl, rfl⟩

/-- C6: the synaptic-current recordables agree on every state: `get_I_syn_ex_()` is
`S_.I_syn_ex_`, `get_I_syn_in_()` is `S_.I_syn_in_`, `get_I_syn_()` is their sum, hence
`get_I_syn_() = get_I_syn_ex_() + get_I_syn_in_()`. -/
theorem I_syn_recordables_consistent [Add R]
    (self : iaf_psc_exp_ps_lossless R SRB RB UDL) :
    get_I_syn_ex_ self = self.S_.I_syn_ex_ ∧
      get_I_syn_in_ self = self.S_.I_syn_in_ ∧
      get_I_syn_ self = self.S_.I_syn_ex_ + self.S_.I_syn_in_ ∧
      get_I_syn_ self = get_I_syn_ex_ self + get_I_syn_in_ self :=
  ⟨rfl, rfl, rfl, rfl⟩

end Theorems

end nest
